import Mathlib

/-!
Shallow embedding of the timed-punishment subsystem of The Cascade Bot
(`core/utils.py` duration parsing, `core/database.py` store operations, and
`cogs/moderation/punishment_system.py` command handlers), together with
theorems settling the specification claims about it.
-/

deriving instance DecidableEq for Except

namespace CascadeBot

/-! ## Python-level modelling primitives -/

/-- Exceptions relevant to the embedded code paths. `nameError` models a failed
global-name lookup, `overflowError` the exception raised by an out-of-range
`timedelta` construction, `forbidden` the platform's permission exception, and
`otherExn` any other exception (caught by a bare `except Exception`). -/
inductive PyExn where
  | nameError
  | overflowError
  | forbidden
  | otherExn
deriving DecidableEq, Repr

/-- Outcome of one external (platform or database) call, as resolved by the
environment: it either completes, raises the permission exception, or raises
some other exception. -/
inductive CallOutcome where
  | ok
  | forbidden
  | error
deriving DecidableEq, Repr

/-! ## DurationParser (`core/utils.py`, `parse_duration`) -/

/-- Characters removed by Python `str.strip()` (ASCII whitespace). -/
def pyWhitespace (c : Char) : Bool :=
  c = ' ' || c = '\t' || c = '\n' || c = '\r' || c = '\x0b' || c = '\x0c'

/-- Python `str.strip()`: drop whitespace from both ends. -/
def pyStrip (l : List Char) : List Char :=
  ((l.dropWhile pyWhitespace).reverse.dropWhile pyWhitespace).reverse

/-- Python `str.lower()` restricted to ASCII, which covers every input the
duration grammar can accept. -/
def pyLower (l : List Char) : List Char :=
  l.map Char.toLower

/-- Numeric value of a digit string, as Python `int()` computes it. -/
def digitsToNat (l : List Char) : Nat :=
  l.foldl (fun acc c => 10 * acc + (c.toNat - 48)) 0

/-- One optional regex group `(?:(\d+)u)?` matched greedily at the current
position. Inside a maximal digit run the unit letter can only follow the whole
run, so the group participates exactly when the run is nonempty and the next
character is the unit letter; otherwise the position is unchanged. -/
def matchUnit (u : Char) (l : List Char) : Option Nat × List Char :=
  let digits := l.takeWhile Char.isDigit
  let rest := l.dropWhile Char.isDigit
  if digits.isEmpty then (none, l)
  else
    match rest with
    | [] => (none, l)
    | c :: r => if c = u then (some (digitsToNat digits), r) else (none, l)

/-- Largest total-seconds value `datetime.timedelta` can represent
(999999999 days, 23:59:59); a larger normalized value raises OverflowError. -/
def TIMEDELTA_MAX_SECONDS : Nat := 999999999 * 86400 + 86399

/-- `parse_duration` (`core/utils.py` lines 65-93). The pattern
`(?:(\d+)d)?(?:(\d+)h)?(?:(\d+)m)?(?:(\d+)s)?` has every group optional, so
`re.match` always succeeds (matching a possibly empty prefix) and the
`if not match: return None` branch of the source is unreachable. The
`timedelta(...)` construction raises OverflowError when the total exceeds
`TIMEDELTA_MAX_SECONDS`; the source catches only ValueError, so that exception
escapes, which `.error .overflowError` records. A returned timedelta is
represented by its total whole seconds. -/
def parse_duration (s : String) : Except PyExn (Option Nat) :=
  let l := pyStrip (pyLower s.toList)
  let (d, l1) := matchUnit 'd' l
  let (h, l2) := matchUnit 'h' l1
  let (m, l3) := matchUnit 'm' l2
  let (sec, _) := matchUnit 's' l3
  let total := 86400 * d.getD 0 + 3600 * h.getD 0 + 60 * m.getD 0 + sec.getD 0
  if TIMEDELTA_MAX_SECONDS < total then
    Except.error PyExn.overflowError
  else
    Except.ok (some total)

/-! ## World model for the command handlers
(`cogs/moderation/punishment_system.py`) -/

/-- A guild role as the handlers consult it: identifier, display name, and the
position-derived rank used by `top_role` comparisons. -/
structure RoleInfo where
  id : Nat
  name : String
  rank : Nat
deriving DecidableEq, Repr

/-- The slice of `ctx.guild` the punishment commands touch. `freshRoleId` is
the identifier the platform assigns if `create_role` is invoked. -/
structure Guild where
  id : Nat
  ownerId : Nat
  roles : List RoleInfo
  textChannels : List Nat
  voiceChannels : List Nat
  memberIds : List Nat
  freshRoleId : Nat
deriving DecidableEq, Repr

/-- The slice of the bot instance the handlers touch: its own user id and the
guilds it is connected to. -/
structure Bot where
  userId : Nat
  guilds : List Guild
deriving DecidableEq, Repr

/-- Per-invocation command context: the invoking moderator (`ctx.author`), the
target member, their `top_role` ranks, and the guild. -/
structure CmdInput where
  guild : Guild
  authorId : Nat
  authorTopRoleRank : Nat
  targetId : Nat
  targetTopRoleRank : Nat
deriving DecidableEq, Repr

/-- Resolution of every fallible external call an invocation can make:
direct-message delivery, role addition/removal, role creation, kick, ban, the
audit-row insert, and the raw warnings UPDATE. -/
structure Env where
  dmOutcome : CallOutcome
  addRolesOutcome : CallOutcome
  removeRolesOutcome : CallOutcome
  createRoleOutcome : CallOutcome
  kickOutcome : CallOutcome
  banOutcome : CallOutcome
  logActionOutcome : CallOutcome
  executeOutcome : CallOutcome
deriving DecidableEq, Repr

/-- The environment in which every external call completes normally. -/
def Env.allOk : Env :=
  ⟨.ok, .ok, .ok, .ok, .ok, .ok, .ok, .ok⟩

/-- Observable external effects, recorded in invocation order; an effect is
recorded only when the corresponding call completes. -/
inductive Effect where
  | sendChannel (msg : String)
  | sendDM (userId : Nat) (title : String)
  | addRoles (userId roleId : Nat)
  | removeRoles (userId roleId : Nat)
  | kickMember (userId : Nat)
  | banMember (userId : Nat)
  | logModerationAction (guildId userId moderatorId : Nat)
      (actionType : String) (duration : Option Nat)
  | dbExecute (userId newWarnings : Nat)
  | createRole (name : String)
  | setChannelPermissions (channelId roleId : Nat)
  | sleep (seconds : Nat)
  | logInfo
  | logError
  | logAction (actionType : String)
deriving DecidableEq, Repr

/-- Effects a fired deferred unmute would produce: the delay itself and the
role removal. -/
def Effect.isUnmuteStep : Effect → Bool
  | .sleep _ => true
  | .removeRoles _ _ => true
  | _ => false

/-- Result of running one handler: the ordered effect trace and the exception,
if any, escaping the handler. -/
structure RunResult where
  trace : List Effect
  raised : Option PyExn
deriving DecidableEq, Repr

/-- Effects that mutate external state (platform or database), as opposed to
messages, notifications and log lines. -/
def Effect.isMutation : Effect → Bool
  | .addRoles _ _ => true
  | .removeRoles _ _ => true
  | .kickMember _ => true
  | .banMember _ => true
  | .logModerationAction _ _ _ _ _ => true
  | .dbExecute _ _ => true
  | .createRole _ => true
  | .setChannelPermissions _ _ => true
  | _ => false

/-! ## ModerationStore (`core/database.py`) -/

/-- A row of the `users` table, restricted to the `warnings` counter the
punishment subsystem reads and writes. -/
structure UserRow where
  warnings : Nat
deriving DecidableEq, Repr

/-- A row of the `moderation_logs` table as `log_moderation_action` inserts
it. -/
structure LogRow where
  id : Nat
  guildId : Nat
  userId : Nat
  moderatorId : Nat
  actionType : String
  duration : Option Nat
deriving DecidableEq, Repr

/-- Database state visible to the punishment subsystem: the `users` rows, the
`moderation_logs` rows, and the next serial id the store will assign. -/
structure DBState where
  users : List (Nat × UserRow)
  logs : List LogRow
  nextLogId : Nat
deriving DecidableEq, Repr

/-- `get_user` (`core/database.py` lines 344-358): `SELECT * FROM users WHERE
id = $1`, returning the row or None. No row is created. -/
def DBState.get_user (db : DBState) (userId : Nat) : Option UserRow :=
  (db.users.find? (fun p => p.1 = userId)).map Prod.snd

/-- `log_moderation_action` (`core/database.py` lines 360-383): inserts one
audit row and returns its assigned serial id. -/
def DBState.log_moderation_action (db : DBState) (guildId userId moderatorId : Nat)
    (actionType : String) (duration : Option Nat) : Nat × DBState :=
  (db.nextLogId,
   { users := db.users
     logs := db.logs ++ [⟨db.nextLogId, guildId, userId, moderatorId, actionType, duration⟩]
     nextLogId := db.nextLogId + 1 })

/-- The raw `execute "UPDATE users SET warnings = $1 WHERE id = $2"` issued by
the warn handler. -/
def DBState.setWarnings (db : DBState) (userId w : Nat) : DBState :=
  { db with
    users := db.users.map (fun p => if p.1 = userId then (p.1, ⟨w⟩) else p) }

/-! ## UnmuteScheduler (`punishment_system.py`, `schedule_unmute`) -/

/-- The module-level global names bound in `punishment_system.py`: its imports
(lines 8-13) and its top-level definitions. `asyncio` is not among them. -/
def punishmentSystemGlobals : List String :=
  ["discord", "commands", "logging", "datetime", "timedelta",
   "is_mod_or_admin", "create_embed", "parse_duration", "BotLogger",
   "PunishmentSystem", "setup"]

/-- The guild loop of `schedule_unmute` (lines 269-292): find the first guild
holding the member, look the role up, remove it, notify, and stop; a failure
inside the try block is logged and the loop continues with the next guild. -/
def scheduleUnmuteLoop (env : Env) (guilds : List Guild)
    (userId roleId : Nat) : List Effect :=
  match guilds with
  | [] => []
  | g :: gs =>
    if userId ∈ g.memberIds then
      match g.roles.find? (fun r => r.id = roleId) with
      | some _ =>
        match env.removeRolesOutcome with
        | .ok =>
          if env.dmOutcome = .error then
            Effect.removeRoles userId roleId :: Effect.logError ::
              scheduleUnmuteLoop env gs userId roleId
          else
            [Effect.removeRoles userId roleId]
              ++ (if env.dmOutcome = .ok then [Effect.sendDM userId "Unmuted"] else [])
              ++ [Effect.logInfo]
        | _ => Effect.logError :: scheduleUnmuteLoop env gs userId roleId
      | none => scheduleUnmuteLoop env gs userId roleId
    else scheduleUnmuteLoop env gs userId roleId

/-- `schedule_unmute` (lines 255-292). Its first statement is
`await asyncio.sleep(duration_seconds)`, which begins by resolving the global
name `asyncio`; `punishmentSystemGlobals` does not bind it (and builtins never
do), so every invocation raises NameError before sleeping. The branch guarded
by the name being bound is the translation of the rest of the body. -/
def schedule_unmute (bot : Bot) (env : Env)
    (userId roleId durationSeconds : Nat) : RunResult :=
  if punishmentSystemGlobals.contains "asyncio" then
    { trace := Effect.sleep durationSeconds ::
        scheduleUnmuteLoop env bot.guilds userId roleId
      raised := none }
  else
    { trace := [], raised := some PyExn.nameError }

/-! ## PunishmentCoordinator: the four command handlers -/

/-- Body of `warn` (lines 57-113): the try block entered after the three
authority checks. Flow: DM attempt (Forbidden passed over, any other
exception falls to the outer handler), audit insert, `get_user`, warnings
UPDATE only when a row exists, response, logger call. The outer
`except Exception` converts any escaped exception into the generic message. -/
def warnBody (inp : CmdInput) (env : Env) (db : DBState) : RunResult × DBState :=
  if env.dmOutcome = .error then
    ({ trace := [Effect.logError,
         Effect.sendChannel "An error occurred while trying to warn the user."]
       raised := none }, db)
  else
    let tr1 : List Effect :=
      if env.dmOutcome = .ok then [Effect.sendDM inp.targetId "Warning"] else []
    match env.logActionOutcome with
    | .ok =>
      let db1 := (db.log_moderation_action inp.guild.id inp.targetId inp.authorId
        "warn" none).2
      let tr2 := tr1 ++ [Effect.logModerationAction inp.guild.id inp.targetId
        inp.authorId "warn" none]
      match db1.get_user inp.targetId with
      | some row =>
        match env.executeOutcome with
        | .ok =>
          let db2 := db1.setWarnings inp.targetId (row.warnings + 1)
          ({ trace := tr2 ++ [Effect.dbExecute inp.targetId (row.warnings + 1),
               Effect.sendChannel "User Warned", Effect.logAction "warn"]
             raised := none }, db2)
        | _ =>
          ({ trace := tr2 ++ [Effect.logError,
               Effect.sendChannel "An error occurred while trying to warn the user."]
             raised := none }, db1)
      | none =>
        ({ trace := tr2 ++ [Effect.sendChannel "User Warned",
             Effect.logAction "warn"]
           raised := none }, db1)
    | _ =>
      ({ trace := tr1 ++ [Effect.logError,
           Effect.sendChannel "An error occurred while trying to warn the user."]
         raised := none }, db)

/-- `warn` (lines 31-113): the three ordered authority checks, then the try
block. -/
def warn (bot : Bot) (inp : CmdInput) (env : Env) (db : DBState) :
    RunResult × DBState :=
  if inp.targetId = inp.authorId then
    ({ trace := [Effect.sendChannel "You cannot warn yourself."], raised := none }, db)
  else if inp.targetId = bot.userId then
    ({ trace := [Effect.sendChannel "I cannot warn myself."], raised := none }, db)
  else if inp.authorTopRoleRank ≤ inp.targetTopRoleRank ∧ inp.authorId ≠ inp.guild.ownerId then
    ({ trace := [Effect.sendChannel "You cannot warn someone with a higher or equal role."]
       raised := none }, db)
  else
    warnBody inp env db

/-- Python's substring containment `pat in l`, on character lists. -/
def hasSubstring (pat : List Char) : List Char → Bool
  | [] => pat.isEmpty
  | c :: rest => List.isPrefixOf pat (c :: rest) || hasSubstring pat rest

/-- The mute-role search of `mute` (lines 153-157): the first guild role whose
lowercased name contains "mute" (the source's second disjunct, containing
"muted", is subsumed). -/
def muteRoleSearch (roles : List RoleInfo) : Option RoleInfo :=
  roles.find? (fun r =>
    hasSubstring "mute".toList (pyLower r.name.toList)
    || hasSubstring "muted".toList (pyLower r.name.toList))

/-- The main try block of `mute` (lines 192-253), entered with the resolved
mute role id and the trace `pre` accumulated by role creation. Flow: role add
(Forbidden and other exceptions caught by the two handlers), DM attempt, audit
insert, response, logger call, then `await self.schedule_unmute(...)` whose
NameError falls to the outer `except Exception`. -/
def muteExec (bot : Bot) (inp : CmdInput) (t : Nat) (muteRoleId : Nat)
    (pre : List Effect) (env : Env) (db : DBState) : RunResult × DBState :=
  match env.addRolesOutcome with
  | .forbidden =>
    ({ trace := pre ++ [Effect.sendChannel "I don't have permission to mute this user."]
       raised := none }, db)
  | .error =>
    ({ trace := pre ++ [Effect.logError,
         Effect.sendChannel "An error occurred while trying to mute the user."]
       raised := none }, db)
  | .ok =>
    let tr1 := pre ++ [Effect.addRoles inp.targetId muteRoleId]
    if env.dmOutcome = .error then
      ({ trace := tr1 ++ [Effect.logError,
           Effect.sendChannel "An error occurred while trying to mute the user."]
         raised := none }, db)
    else
      let tr2 := tr1 ++
        (if env.dmOutcome = .ok then [Effect.sendDM inp.targetId "Muted"] else [])
      match env.logActionOutcome with
      | .ok =>
        let db1 := (db.log_moderation_action inp.guild.id inp.targetId inp.authorId
          "mute" (some t)).2
        let tr3 := tr2 ++ [Effect.logModerationAction inp.guild.id inp.targetId
            inp.authorId "mute" (some t),
          Effect.sendChannel "User Muted", Effect.logAction "mute"]
        let su := schedule_unmute bot env inp.targetId muteRoleId t
        match su.raised with
        | some _ =>
          ({ trace := tr3 ++ su.trace ++ [Effect.logError,
               Effect.sendChannel "An error occurred while trying to mute the user."]
             raised := none }, db1)
        | none => ({ trace := tr3 ++ su.trace, raised := none }, db1)
      | _ =>
        ({ trace := tr2 ++ [Effect.logError,
             Effect.sendChannel "An error occurred while trying to mute the user."]
           raised := none }, db)

/-- Mute-role resolution (lines 152-190): use an existing matching role, or
create "Muted" and apply channel permission overrides (modelled as completing
once `create_role` itself has succeeded), with the creation failure handlers
of the source. -/
def muteRolePhase (bot : Bot) (inp : CmdInput) (t : Nat) (env : Env)
    (db : DBState) : RunResult × DBState :=
  match muteRoleSearch inp.guild.roles with
  | some r => muteExec bot inp t r.id [] env db
  | none =>
    match env.createRoleOutcome with
    | .forbidden =>
      ({ trace := [Effect.sendChannel "I don't have permission to create a mute role."]
         raised := none }, db)
    | .error =>
      ({ trace := [Effect.logError, Effect.sendChannel "Error creating mute role."]
         raised := none }, db)
    | .ok =>
      let rid := inp.guild.freshRoleId
      let pre := Effect.createRole "Muted" ::
        (inp.guild.textChannels.map (fun ch => Effect.setChannelPermissions ch rid)
          ++ inp.guild.voiceChannels.map (fun ch => Effect.setChannelPermissions ch rid)
          ++ [Effect.sendChannel "Created Muted role"])
      muteExec bot inp t rid pre env db

/-- Duration validation of `mute` (lines 142-150) and onward: parse the
duration string (an OverflowError escaping `parse_duration` propagates out of
the handler, which has no try around this call), reject falsy results (None or
the zero timedelta) as invalid format, reject totals above 28 days, then
resolve the mute role. -/
def muteBody (bot : Bot) (inp : CmdInput) (durationStr : String) (env : Env)
    (db : DBState) : RunResult × DBState :=
  match parse_duration durationStr with
  | .error e => ({ trace := [], raised := some e }, db)
  | .ok parsed =>
    if parsed = none ∨ parsed = some 0 then
      ({ trace := [Effect.sendChannel
           "Invalid duration format. Use formats like: 1h, 30m, 1d, 2h30m"]
         raised := none }, db)
    else
      let t := parsed.getD 0
      if 2419200 < t then
        ({ trace := [Effect.sendChannel "Maximum mute duration is 28 days."]
           raised := none }, db)
      else
        muteRolePhase bot inp t env db

/-- `mute` (lines 115-253): the three ordered authority checks, then duration
validation, role resolution, and execution. -/
def mute (bot : Bot) (inp : CmdInput) (durationStr : String) (env : Env)
    (db : DBState) : RunResult × DBState :=
  if inp.targetId = inp.authorId then
    ({ trace := [Effect.sendChannel "You cannot mute yourself."], raised := none }, db)
  else if inp.targetId = bot.userId then
    ({ trace := [Effect.sendChannel "I cannot mute myself."], raised := none }, db)
  else if inp.authorTopRoleRank ≤ inp.targetTopRoleRank ∧ inp.authorId ≠ inp.guild.ownerId then
    ({ trace := [Effect.sendChannel "You cannot mute someone with a higher or equal role."]
       raised := none }, db)
  else
    muteBody bot inp durationStr env db

/-- Body of `kick` (lines 320-371): DM attempt first, then the kick itself,
then the audit insert, response and logger call, with the source's Forbidden
and generic handlers. -/
def kickBody (inp : CmdInput) (env : Env) (db : DBState) : RunResult × DBState :=
  if env.dmOutcome = .error then
    ({ trace := [Effect.logError,
         Effect.sendChannel "An error occurred while trying to kick the user."]
       raised := none }, db)
  else
    let tr1 : List Effect :=
      if env.dmOutcome = .ok then [Effect.sendDM inp.targetId "Kicked"] else []
    match env.kickOutcome with
    | .forbidden =>
      ({ trace := tr1 ++ [Effect.sendChannel "I don't have permission to kick this user."]
         raised := none }, db)
    | .error =>
      ({ trace := tr1 ++ [Effect.logError,
           Effect.sendChannel "An error occurred while trying to kick the user."]
         raised := none }, db)
    | .ok =>
      let tr2 := tr1 ++ [Effect.kickMember inp.targetId]
      match env.logActionOutcome with
      | .ok =>
        let db1 := (db.log_moderation_action inp.guild.id inp.targetId inp.authorId
          "kick" none).2
        ({ trace := tr2 ++ [Effect.logModerationAction inp.guild.id inp.targetId
             inp.authorId "kick" none,
           Effect.sendChannel "User Kicked", Effect.logAction "kick"]
           raised := none }, db1)
      | _ =>
        ({ trace := tr2 ++ [Effect.logError,
             Effect.sendChannel "An error occurred while trying to kick the user."]
           raised := none }, db)

/-- `kick` (lines 294-371): the three ordered authority checks, then the try
block. -/
def kick (bot : Bot) (inp : CmdInput) (env : Env) (db : DBState) :
    RunResult × DBState :=
  if inp.targetId = inp.authorId then
    ({ trace := [Effect.sendChannel "You cannot kick yourself."], raised := none }, db)
  else if inp.targetId = bot.userId then
    ({ trace := [Effect.sendChannel "I cannot kick myself."], raised := none }, db)
  else if inp.authorTopRoleRank ≤ inp.targetTopRoleRank ∧ inp.authorId ≠ inp.guild.ownerId then
    ({ trace := [Effect.sendChannel "You cannot kick someone with a higher or equal role."]
       raised := none }, db)
  else
    kickBody inp env db

/-- Body of `ban` (lines 399-450): DM attempt first, then the ban itself, then
the audit insert, response and logger call, with the source's Forbidden and
generic handlers. -/
def banBody (inp : CmdInput) (env : Env) (db : DBState) : RunResult × DBState :=
  if env.dmOutcome = .error then
    ({ trace := [Effect.logError,
         Effect.sendChannel "An error occurred while trying to ban the user."]
       raised := none }, db)
  else
    let tr1 : List Effect :=
      if env.dmOutcome = .ok then [Effect.sendDM inp.targetId "Banned"] else []
    match env.banOutcome with
    | .forbidden =>
      ({ trace := tr1 ++ [Effect.sendChannel "I don't have permission to ban this user."]
         raised := none }, db)
    | .error =>
      ({ trace := tr1 ++ [Effect.logError,
           Effect.sendChannel "An error occurred while trying to ban the user."]
         raised := none }, db)
    | .ok =>
      let tr2 := tr1 ++ [Effect.banMember inp.targetId]
      match env.logActionOutcome with
      | .ok =>
        let db1 := (db.log_moderation_action inp.guild.id inp.targetId inp.authorId
          "ban" none).2
        ({ trace := tr2 ++ [Effect.logModerationAction inp.guild.id inp.targetId
             inp.authorId "ban" none,
           Effect.sendChannel "User Banned", Effect.logAction "ban"]
           raised := none }, db1)
      | _ =>
        ({ trace := tr2 ++ [Effect.logError,
             Effect.sendChannel "An error occurred while trying to ban the user."]
           raised := none }, db)

/-- `ban` (lines 373-450): the three ordered authority checks, then the try
block. -/
def ban (bot : Bot) (inp : CmdInput) (env : Env) (db : DBState) :
    RunResult × DBState :=
  if inp.targetId = inp.authorId then
    ({ trace := [Effect.sendChannel "You cannot ban yourself."], raised := none }, db)
  else if inp.targetId = bot.userId then
    ({ trace := [Effect.sendChannel "I cannot ban myself."], raised := none }, db)
  else if inp.authorTopRoleRank ≤ inp.targetTopRoleRank ∧ inp.authorId ≠ inp.guild.ownerId then
    ({ trace := [Effect.sendChannel "You cannot ban someone with a higher or equal role."]
       raised := none }, db)
  else
    banBody inp env db

/-! ## The spec's duration grammar, for comparison with `parse_duration` -/

/-- The ten ASCII digit characters. -/
def digitChars : List Char :=
  ['0', '1', '2', '3', '4', '5', '6', '7', '8', '9']

/-- Rendition of one optional `<integer><unit>` grammar group. -/
def groupChars : Option (List Char) → Char → List Char
  | none, _ => []
  | some ds, u => ds ++ [u]

/-- A full sentence of the spec grammar
`(\d+d)?(\d+h)?(\d+m)?(\d+s)?`: each group is either absent or a digit string
followed by its unit letter, units in fixed order. -/
def grammarChars (d h m s : Option (List Char)) : List Char :=
  groupChars d 'd' ++ groupChars h 'h' ++ groupChars m 'm' ++ groupChars s 's'

/-- Well-formedness of one optional group: absent, or a nonempty string of
digit characters. -/
def DigitGroup : Option (List Char) → Prop
  | none => True
  | some ds => ds ≠ [] ∧ ∀ c ∈ ds, c ∈ digitChars

/-- The integer a group denotes (0 when absent). -/
def groupVal : Option (List Char) → Nat
  | none => 0
  | some ds => digitsToNat ds

/-! ## Concrete fixtures used by witnesses and counterexamples -/

/-- A guild with an existing "Muted" role (id 50, rank 1), one text and one
voice channel, member 42, owned by user 100. -/
def testGuild : Guild :=
  ⟨1, 100, [⟨50, "Muted", 1⟩], [10], [20], [42], 99⟩

/-- The bot (user id 999) connected to `testGuild`. -/
def testBot : Bot := ⟨999, [testGuild]⟩

/-- Moderator 2 (top-role rank 5) targeting member 42 (top-role rank 3) in
`testGuild`; the moderator is not the owner. -/
def testInput : CmdInput := ⟨testGuild, 2, 5, 42, 3⟩

/-- An empty database: no user rows, no audit rows, next serial id 1. -/
def emptyDB : DBState := ⟨[], [], 1⟩

/-! ## Helper lemmas -/

theorem find_map_setWarnings (l : List (Nat × UserRow)) (uid w : Nat) :
    ((l.map (fun p => if p.1 = uid then (p.1, (⟨w⟩ : UserRow)) else p)).find?
        (fun p => p.1 = uid)) =
      (l.find? (fun p => p.1 = uid)).map (fun _ => (uid, (⟨w⟩ : UserRow))) := by
  induction l with
  | nil => rfl
  | cons a t ih =>
    by_cases h : a.1 = uid
    · simp [List.find?_cons, h]
    · simp [List.find?_cons, h, ih]

/-- `setWarnings` rewrites the target's row (when present) and touches no
other row. -/
theorem get_user_setWarnings (db : DBState) (uid w : Nat) :
    (db.setWarnings uid w).get_user uid =
      (db.get_user uid).map (fun _ => (⟨w⟩ : UserRow)) := by
  unfold DBState.get_user DBState.setWarnings
  simp only [find_map_setWarnings]
  cases db.users.find? (fun p => p.1 = uid) <;> rfl

/-- Inserting an audit row leaves the `users` table untouched. -/
theorem get_user_log_moderation_action (db : DBState) (g u m : Nat)
    (a : String) (d : Option Nat) (uid : Nat) :
    ((db.log_moderation_action g u m a d).2).get_user uid = db.get_user uid := rfl

theorem toList_mk (l : List Char) : (String.mk l).toList = l := rfl

theorem digit_isDigit : ∀ c ∈ digitChars, c.isDigit = true := by decide

theorem digit_toLower : ∀ c ∈ digitChars, c.toLower = c := by decide

theorem digit_not_ws : ∀ c ∈ digitChars, pyWhitespace c = false := by decide

theorem dropWhile_eq_self_of (p : Char → Bool) (l : List Char)
    (h : ∀ c ∈ l, p c = false) : l.dropWhile p = l := by
  cases l with
  | nil => rfl
  | cons a t => rw [List.dropWhile_cons, h a (by simp)]; rfl

theorem pyStrip_eq_self (l : List Char) (h : ∀ c ∈ l, pyWhitespace c = false) :
    pyStrip l = l := by
  unfold pyStrip
  rw [dropWhile_eq_self_of _ _ h,
    dropWhile_eq_self_of _ _ (fun c hc => h c (List.mem_reverse.mp hc)),
    List.reverse_reverse]

theorem pyLower_eq_self (l : List Char) (h : ∀ c ∈ l, c.toLower = c) :
    pyLower l = l := by
  unfold pyLower
  induction l with
  | nil => rfl
  | cons a t ih =>
    rw [List.map_cons, h a (by simp), ih (fun c hc => h c (by simp [hc]))]

theorem digitRun_split (ds : List Char) (hds : ∀ x ∈ ds, x.isDigit = true)
    (c : Char) (hc : c.isDigit = false) (r : List Char) :
    (ds ++ c :: r).takeWhile Char.isDigit = ds ∧
    (ds ++ c :: r).dropWhile Char.isDigit = c :: r := by
  induction ds with
  | nil => simp [List.takeWhile_cons, List.dropWhile_cons, hc]
  | cons a t ih =>
    have ha : a.isDigit = true := hds a (by simp)
    have iht := ih (fun x hx => hds x (by simp [hx]))
    simp [List.takeWhile_cons, List.dropWhile_cons, ha, iht.1, iht.2]

theorem matchUnit_hit (u : Char) (hu : u.isDigit = false) (ds : List Char)
    (hne : ds ≠ []) (hds : ∀ x ∈ ds, x.isDigit = true) (r : List Char) :
    matchUnit u (ds ++ u :: r) = (some (digitsToNat ds), r) := by
  have hsplit := digitRun_split ds hds u hu r
  simp only [matchUnit, hsplit.1, hsplit.2]
  cases ds with
  | nil => exact absurd rfl hne
  | cons a t => simp

theorem matchUnit_skip (u : Char) (ds : List Char)
    (hds : ∀ x ∈ ds, x.isDigit = true) (c : Char) (hc : c.isDigit = false)
    (hcu : c ≠ u) (r : List Char) :
    matchUnit u (ds ++ c :: r) = (none, ds ++ c :: r) := by
  have hsplit := digitRun_split ds hds c hc r
  simp only [matchUnit, hsplit.1, hsplit.2]
  cases ds with
  | nil => rfl
  | cons a t => simp [hcu]

theorem mem_groupChars (c : Char) (g : Option (List Char)) (u : Char)
    (hc : c ∈ groupChars g u) : (∃ ds, g = some ds ∧ c ∈ ds) ∨ c = u := by
  cases g with
  | none => simp [groupChars] at hc
  | some ds =>
    simp only [groupChars, List.mem_append, List.mem_singleton] at hc
    rcases hc with hc | hc
    · exact Or.inl ⟨ds, rfl, hc⟩
    · exact Or.inr hc

theorem grammar_chars_class (d h m s : Option (List Char))
    (hd : DigitGroup d) (hh : DigitGroup h) (hm : DigitGroup m)
    (hs : DigitGroup s) :
    ∀ c ∈ grammarChars d h m s,
      c ∈ digitChars ∨ c = 'd' ∨ c = 'h' ∨ c = 'm' ∨ c = 's' := by
  intro c hc
  simp only [grammarChars, List.mem_append] at hc
  rcases hc with ((hc | hc) | hc) | hc
  · rcases mem_groupChars c d 'd' hc with ⟨ds, hg, hin⟩ | rfl
    · subst hg; exact Or.inl (hd.2 c hin)
    · exact Or.inr (Or.inl rfl)
  · rcases mem_groupChars c h 'h' hc with ⟨ds, hg, hin⟩ | rfl
    · subst hg; exact Or.inl (hh.2 c hin)
    · exact Or.inr (Or.inr (Or.inl rfl))
  · rcases mem_groupChars c m 'm' hc with ⟨ds, hg, hin⟩ | rfl
    · subst hg; exact Or.inl (hm.2 c hin)
    · exact Or.inr (Or.inr (Or.inr (Or.inl rfl)))
  · rcases mem_groupChars c s 's' hc with ⟨ds, hg, hin⟩ | rfl
    · subst hg; exact Or.inl (hs.2 c hin)
    · exact Or.inr (Or.inr (Or.inr (Or.inr rfl)))

theorem matchS (s : Option (List Char)) (hs : DigitGroup s) :
    matchUnit 's' (groupChars s 's') = (Option.map digitsToNat s, []) := by
  cases s with
  | none => rfl
  | some ds =>
    simp only [groupChars, Option.map_some']
    exact matchUnit_hit 's' (by decide) ds hs.1
      (fun x hx => digit_isDigit x (hs.2 x hx)) []

theorem matchM (m s : Option (List Char)) (hm : DigitGroup m)
    (hs : DigitGroup s) :
    matchUnit 'm' (groupChars m 'm' ++ groupChars s 's') =
      (Option.map digitsToNat m, groupChars s 's') := by
  cases m with
  | some ds =>
    simp only [groupChars, Option.map_some', List.append_assoc,
      List.singleton_append]
    exact matchUnit_hit 'm' (by decide) ds hm.1
      (fun x hx => digit_isDigit x (hm.2 x hx)) _
  | none =>
    simp only [groupChars, List.nil_append, Option.map_none']
    cases s with
    | none => rfl
    | some ss =>
      simp only [groupChars]
      exact matchUnit_skip 'm' ss (fun x hx => digit_isDigit x (hs.2 x hx))
        's' (by decide) (by decide) []

theorem matchH (h m s : Option (List Char)) (hh : DigitGroup h)
    (hm : DigitGroup m) (hs : DigitGroup s) :
    matchUnit 'h' (groupChars h 'h' ++ (groupChars m 'm' ++ groupChars s 's')) =
      (Option.map digitsToNat h, groupChars m 'm' ++ groupChars s 's') := by
  cases h with
  | some ds =>
    simp only [groupChars, Option.map_some', List.append_assoc,
      List.singleton_append]
    exact matchUnit_hit 'h' (by decide) ds hh.1
      (fun x hx => digit_isDigit x (hh.2 x hx)) _
  | none =>
    simp only [groupChars, List.nil_append, Option.map_none']
    cases m with
    | some ms =>
      simp only [groupChars, List.append_assoc, List.singleton_append]
      exact matchUnit_skip 'h' ms (fun x hx => digit_isDigit x (hm.2 x hx))
        'm' (by decide) (by decide) _
    | none =>
      simp only [groupChars, List.nil_append]
      cases s with
      | none => rfl
      | some ss =>
        simp only [groupChars]
        exact matchUnit_skip 'h' ss (fun x hx => digit_isDigit x (hs.2 x hx))
          's' (by decide) (by decide) []

theorem matchD (d h m s : Option (List Char)) (hd : DigitGroup d)
    (hh : DigitGroup h) (hm : DigitGroup m) (hs : DigitGroup s) :
    matchUnit 'd' (grammarChars d h m s) =
      (Option.map digitsToNat d,
        groupChars h 'h' ++ (groupChars m 'm' ++ groupChars s 's')) := by
  have hassoc : grammarChars d h m s =
      groupChars d 'd' ++ (groupChars h 'h' ++ (groupChars m 'm' ++ groupChars s 's')) := by
    simp [grammarChars, List.append_assoc]
  rw [hassoc]
  cases d with
  | some ds =>
    simp only [groupChars, Option.map_some', List.append_assoc,
      List.singleton_append]
    exact matchUnit_hit 'd' (by decide) ds hd.1
      (fun x hx => digit_isDigit x (hd.2 x hx)) _
  | none =>
    simp only [groupChars, List.nil_append, Option.map_none']
    cases h with
    | some hds =>
      simp only [groupChars, List.append_assoc, List.singleton_append]
      exact matchUnit_skip 'd' hds (fun x hx => digit_isDigit x (hh.2 x hx))
        'h' (by decide) (by decide) _
    | none =>
      simp only [groupChars, List.nil_append]
      cases m with
      | some ms =>
        simp only [groupChars, List.append_assoc, List.singleton_append]
        exact matchUnit_skip 'd' ms (fun x hx => digit_isDigit x (hm.2 x hx))
          'm' (by decide) (by decide) _
      | none =>
        simp only [groupChars, List.nil_append]
        cases s with
        | none => rfl
        | some ss =>
          simp only [groupChars]
          exact matchUnit_skip 'd' ss (fun x hx => digit_isDigit x (hs.2 x hx))
            's' (by decide) (by decide) []

theorem groupVal_eq (g : Option (List Char)) :
    (Option.map digitsToNat g).getD 0 = groupVal g := by
  cases g <;> rfl

/-! ## Claim theorems -/

/-- Claim C3 (code bug evidence): on the empty string, on "abc", and on "90",
`parse_duration` does not return the error/None result the claim requires; it
returns the zero timedelta, because the all-optional pattern matches a
zero-length prefix of every input, making the source's `if not match` branch
unreachable. -/
theorem C3_parse_duration_zero_pairs_returns_zero_timedelta :
    parse_duration "" = Except.ok (some 0) ∧
    parse_duration "abc" = Except.ok (some 0) ∧
    parse_duration "90" = Except.ok (some 0) ∧
    (Except.ok (some 0) : Except PyExn (Option Nat)) ≠ Except.ok none := by
  exact ⟨rfl, rfl, rfl, by decide⟩

/-- Claim C5 (code bug evidence): an input whose total seconds
(2*10^14 days = 1.728*10^19 s) exceeds both a 64-bit count and the timedelta
range makes `parse_duration` raise OverflowError, which the source's
`except ValueError` does not catch, instead of returning the parse-error
result the claim requires. -/
theorem C5_parse_duration_overflow_escapes :
    parse_duration "200000000000000d" = Except.error PyExn.overflowError ∧
    (86400 * 200000000000000 : Nat) > 2 ^ 63 - 1 := by
  refine ⟨rfl, by norm_num⟩

/-- Claim C1 (code bug evidence): a fully successful mute (role added, audit
row written) then awaits `schedule_unmute` inline, which raises NameError at
once (`asyncio` is never imported), so the command falls into its generic
error handler; nothing sleeps for the delay and no role removal ever runs,
contradicting the claimed non-blocking registration and deferred removal. -/
theorem C1_mute_schedule_call_fails_instead_of_registering :
    mute testBot testInput "30m" Env.allOk emptyDB =
      ({ trace := [Effect.addRoles 42 50, Effect.sendDM 42 "Muted",
           Effect.logModerationAction 1 42 2 "mute" (some 1800),
           Effect.sendChannel "User Muted", Effect.logAction "mute",
           Effect.logError,
           Effect.sendChannel "An error occurred while trying to mute the user."]
         raised := none },
       { users := [], logs := [⟨1, 1, 42, 2, "mute", some 1800⟩], nextLogId := 2 }) ∧
    (∀ e ∈ (mute testBot testInput "30m" Env.allOk emptyDB).1.trace,
      e.isUnmuteStep = false) := by
  refine ⟨by rfl, by decide⟩

/-- Claim C4 (counterexample): warning a fresh user does not create its user
record: after one, and after three, fully successful warns of user 42 starting
from the empty database, the `users` table still has no row for 42, so the
stored counter is never 1, 2, 3. -/
theorem C4_counterexample_fresh_user_never_created :
    (warn testBot testInput Env.allOk emptyDB).1.raised = none ∧
    Effect.sendChannel "User Warned" ∈ (warn testBot testInput Env.allOk emptyDB).1.trace ∧
    (warn testBot testInput Env.allOk emptyDB).2.get_user 42 = none ∧
    ((warn testBot testInput Env.allOk
        ((warn testBot testInput Env.allOk
          ((warn testBot testInput Env.allOk emptyDB).2)).2)).2).get_user 42 = none := by
  refine ⟨rfl, by decide, rfl, rfl⟩

/-- Claim C6 (counterexample): the input "100000000000000d" is of the grammar
form with the day group present, but `parse_duration` raises OverflowError
(the total exceeds the timedelta range) instead of returning a Duration of
86400 * 10^14 seconds. -/
theorem C6_counterexample_overflowing_grammar_input :
    parse_duration "100000000000000d" = Except.error PyExn.overflowError ∧
    parse_duration "100000000000000d" ≠
      Except.ok (some (86400 * 100000000000000)) := by
  refine ⟨rfl, by decide⟩

/-- Claim C2: every invocation of `schedule_unmute` raises NameError with no
effect performed (no sleep, no role removal), because the module never binds
`asyncio`; consequently a mute whose role-add and audit write both succeeded
still ends by reporting the generic error message to the invoker. -/
theorem C2_schedule_unmute_always_raises_nameError :
    (∀ (bot : Bot) (env : Env) (uid rid dsec : Nat),
        schedule_unmute bot env uid rid dsec =
          { trace := [], raised := some PyExn.nameError }) ∧
    (∀ (bot : Bot) (inp : CmdInput) (dur : String) (t : Nat) (env : Env)
        (db : DBState) (r : RoleInfo),
      inp.targetId ≠ inp.authorId →
      inp.targetId ≠ bot.userId →
      ¬ (inp.authorTopRoleRank ≤ inp.targetTopRoleRank ∧
          inp.authorId ≠ inp.guild.ownerId) →
      parse_duration dur = Except.ok (some t) →
      t ≠ 0 →
      t ≤ 2419200 →
      muteRoleSearch inp.guild.roles = some r →
      env.addRolesOutcome = CallOutcome.ok →
      env.dmOutcome = CallOutcome.ok →
      env.logActionOutcome = CallOutcome.ok →
      mute bot inp dur env db =
        ({ trace := [Effect.addRoles inp.targetId r.id,
             Effect.sendDM inp.targetId "Muted",
             Effect.logModerationAction inp.guild.id inp.targetId inp.authorId
               "mute" (some t),
             Effect.sendChannel "User Muted", Effect.logAction "mute",
             Effect.logError,
             Effect.sendChannel "An error occurred while trying to mute the user."]
           raised := none },
         (db.log_moderation_action inp.guild.id inp.targetId inp.authorId
           "mute" (some t)).2)) := by
  have hasy : "asyncio" ∉ punishmentSystemGlobals := by decide
  constructor
  · intro bot env uid rid dsec
    simp [schedule_unmute, hasy]
  · intro bot inp dur t env db r h1 h2 h3 hp ht0 htle hrole ha hdm hlog
    unfold mute
    rw [if_neg h1, if_neg h2, if_neg h3]
    unfold muteBody
    rw [hp]
    simp only [Option.getD_some]
    rw [if_neg (by simp [ht0]), if_neg (by omega)]
    unfold muteRolePhase
    rw [hrole]
    unfold muteExec
    rw [ha, hdm]
    simp only [reduceCtorEq, if_false, if_true, reduceIte]
    rw [hlog]
    simp [schedule_unmute, hasy]

/-- Witness for C2 at concrete inputs: `schedule_unmute` on user 7, role 8,
delay 9 raises NameError with empty trace, and a fully successful 45-minute
mute of user 42 ends with the generic error message. -/
theorem C2_schedule_unmute_always_raises_nameError_witness :
    schedule_unmute testBot Env.allOk 7 8 9 =
      { trace := [], raised := some PyExn.nameError } ∧
    mute testBot testInput "45m" Env.allOk emptyDB =
      ({ trace := [Effect.addRoles 42 50, Effect.sendDM 42 "Muted",
           Effect.logModerationAction 1 42 2 "mute" (some 2700),
           Effect.sendChannel "User Muted", Effect.logAction "mute",
           Effect.logError,
           Effect.sendChannel "An error occurred while trying to mute the user."]
         raised := none },
       (emptyDB.log_moderation_action 1 42 2 "mute" (some 2700)).2) :=
  ⟨C2_schedule_unmute_always_raises_nameError.1 testBot Env.allOk 7 8 9,
   C2_schedule_unmute_always_raises_nameError.2 testBot testInput "45m" 2700
     Env.allOk emptyDB ⟨50, "Muted", 1⟩ (by decide) (by decide) (by decide)
     (by rfl) (by decide) (by decide) (by rfl) rfl rfl rfl⟩

/-- Claim C7: with the preceding authority checks passed, a parsed duration
strictly above 2419200 seconds makes `mute` reject with the duration-too-long
message, unchanged database and no other effect, while a parsed duration of
exactly 2419200 seconds passes the validation and proceeds to role
resolution. -/
theorem C7_mute_28_day_boundary :
    (∀ (bot : Bot) (inp : CmdInput) (dur : String) (t : Nat) (env : Env)
        (db : DBState),
      inp.targetId ≠ inp.authorId →
      inp.targetId ≠ bot.userId →
      ¬ (inp.authorTopRoleRank ≤ inp.targetTopRoleRank ∧
          inp.authorId ≠ inp.guild.ownerId) →
      parse_duration dur = Except.ok (some t) →
      2419200 < t →
      mute bot inp dur env db =
        ({ trace := [Effect.sendChannel "Maximum mute duration is 28 days."]
           raised := none }, db)) ∧
    (∀ (bot : Bot) (inp : CmdInput) (dur : String) (env : Env) (db : DBState),
      inp.targetId ≠ inp.authorId →
      inp.targetId ≠ bot.userId →
      ¬ (inp.authorTopRoleRank ≤ inp.targetTopRoleRank ∧
          inp.authorId ≠ inp.guild.ownerId) →
      parse_duration dur = Except.ok (some 2419200) →
      mute bot inp dur env db = muteRolePhase bot inp 2419200 env db) := by
  constructor
  · intro bot inp dur t env db h1 h2 h3 hp ht
    unfold mute
    rw [if_neg h1, if_neg h2, if_neg h3]
    unfold muteBody
    rw [hp]
    simp only [Option.getD_some]
    rw [if_neg (by simp; omega), if_pos ht]
  · intro bot inp dur env db h1 h2 h3 hp
    unfold mute
    rw [if_neg h1, if_neg h2, if_neg h3]
    unfold muteBody
    rw [hp]
    simp only [Option.getD_some]
    rw [if_neg (by simp), if_neg (by omega)]

/-- Witness for C7: "2419201s" (2419201 seconds) is rejected with the
duration-too-long message and no other effect, while "28d" (exactly 2419200
seconds) proceeds to role resolution. -/
theorem C7_mute_28_day_boundary_witness :
    mute testBot testInput "2419201s" Env.allOk emptyDB =
      ({ trace := [Effect.sendChannel "Maximum mute duration is 28 days."]
         raised := none }, emptyDB) ∧
    mute testBot testInput "28d" Env.allOk emptyDB =
      muteRolePhase testBot testInput 2419200 Env.allOk emptyDB :=
  ⟨C7_mute_28_day_boundary.1 testBot testInput "2419201s" 2419201 Env.allOk
     emptyDB (by decide) (by decide) (by decide) (by rfl) (by norm_num),
   C7_mute_28_day_boundary.2 testBot testInput "28d" Env.allOk emptyDB
     (by decide) (by decide) (by decide) (by rfl)⟩

/-- Claim C8: in all four punishment commands, once the self- and bot-target
checks have passed, an actor whose top-role rank is at most the target's and
who is not the guild owner is rejected with the hierarchy message and no other
effect; an actor who is the owner, or whose rank strictly exceeds the
target's, passes the hierarchy check and proceeds to the command body. -/
theorem C8_hierarchy_check_all_commands :
    (∀ (bot : Bot) (inp : CmdInput) (env : Env) (db : DBState),
      inp.targetId ≠ inp.authorId → inp.targetId ≠ bot.userId →
      inp.authorTopRoleRank ≤ inp.targetTopRoleRank →
      inp.authorId ≠ inp.guild.ownerId →
      warn bot inp env db =
        ({ trace := [Effect.sendChannel "You cannot warn someone with a higher or equal role."]
           raised := none }, db)) ∧
    (∀ (bot : Bot) (inp : CmdInput) (env : Env) (db : DBState),
      inp.targetId ≠ inp.authorId → inp.targetId ≠ bot.userId →
      (inp.authorId = inp.guild.ownerId ∨ inp.targetTopRoleRank < inp.authorTopRoleRank) →
      warn bot inp env db = warnBody inp env db) ∧
    (∀ (bot : Bot) (inp : CmdInput) (dur : String) (env : Env) (db : DBState),
      inp.targetId ≠ inp.authorId → inp.targetId ≠ bot.userId →
      inp.authorTopRoleRank ≤ inp.targetTopRoleRank →
      inp.authorId ≠ inp.guild.ownerId →
      mute bot inp dur env db =
        ({ trace := [Effect.sendChannel "You cannot mute someone with a higher or equal role."]
           raised := none }, db)) ∧
    (∀ (bot : Bot) (inp : CmdInput) (dur : String) (env : Env) (db : DBState),
      inp.targetId ≠ inp.authorId → inp.targetId ≠ bot.userId →
      (inp.authorId = inp.guild.ownerId ∨ inp.targetTopRoleRank < inp.authorTopRoleRank) →
      mute bot inp dur env db = muteBody bot inp dur env db) ∧
    (∀ (bot : Bot) (inp : CmdInput) (env : Env) (db : DBState),
      inp.targetId ≠ inp.authorId → inp.targetId ≠ bot.userId →
      inp.authorTopRoleRank ≤ inp.targetTopRoleRank →
      inp.authorId ≠ inp.guild.ownerId →
      kick bot inp env db =
        ({ trace := [Effect.sendChannel "You cannot kick someone with a higher or equal role."]
           raised := none }, db)) ∧
    (∀ (bot : Bot) (inp : CmdInput) (env : Env) (db : DBState),
      inp.targetId ≠ inp.authorId → inp.targetId ≠ bot.userId →
      (inp.authorId = inp.guild.ownerId ∨ inp.targetTopRoleRank < inp.authorTopRoleRank) →
      kick bot inp env db = kickBody inp env db) ∧
    (∀ (bot : Bot) (inp : CmdInput) (env : Env) (db : DBState),
      inp.targetId ≠ inp.authorId → inp.targetId ≠ bot.userId →
      inp.authorTopRoleRank ≤ inp.targetTopRoleRank →
      inp.authorId ≠ inp.guild.ownerId →
      ban bot inp env db =
        ({ trace := [Effect.sendChannel "You cannot ban someone with a higher or equal role."]
           raised := none }, db)) ∧
    (∀ (bot : Bot) (inp : CmdInput) (env : Env) (db : DBState),
      inp.targetId ≠ inp.authorId → inp.targetId ≠ bot.userId →
      (inp.authorId = inp.guild.ownerId ∨ inp.targetTopRoleRank < inp.authorTopRoleRank) →
      ban bot inp env db = banBody inp env db) := by
  have hpass : ∀ (inp : CmdInput),
      (inp.authorId = inp.guild.ownerId ∨ inp.targetTopRoleRank < inp.authorTopRoleRank) →
      ¬ (inp.authorTopRoleRank ≤ inp.targetTopRoleRank ∧
          inp.authorId ≠ inp.guild.ownerId) := by
    intro inp hacc hc
    rcases hacc with how | hlt
    · exact hc.2 how
    · exact absurd hc.1 (Nat.not_le.mpr hlt)
  refine ⟨?_, ?_, ?_, ?_, ?_, ?_, ?_, ?_⟩
  · intro bot inp env db h1 h2 hle hown
    unfold warn; rw [if_neg h1, if_neg h2, if_pos ⟨hle, hown⟩]
  · intro bot inp env db h1 h2 hacc
    unfold warn; rw [if_neg h1, if_neg h2, if_neg (hpass inp hacc)]
  · intro bot inp dur env db h1 h2 hle hown
    unfold mute; rw [if_neg h1, if_neg h2, if_pos ⟨hle, hown⟩]
  · intro bot inp dur env db h1 h2 hacc
    unfold mute; rw [if_neg h1, if_neg h2, if_neg (hpass inp hacc)]
  · intro bot inp env db h1 h2 hle hown
    unfold kick; rw [if_neg h1, if_neg h2, if_pos ⟨hle, hown⟩]
  · intro bot inp env db h1 h2 hacc
    unfold kick; rw [if_neg h1, if_neg h2, if_neg (hpass inp hacc)]
  · intro bot inp env db h1 h2 hle hown
    unfold ban; rw [if_neg h1, if_neg h2, if_pos ⟨hle, hown⟩]
  · intro bot inp env db h1 h2 hacc
    unfold ban; rw [if_neg h1, if_neg h2, if_neg (hpass inp hacc)]

/-- Witness for C8: with equal ranks 5 vs 5 a non-owner moderator's warn is
rejected with the hierarchy message; the same configuration with the guild
owner as actor, and a rank 6 vs 5 non-owner kick, both proceed to the command
body. -/
theorem C8_hierarchy_check_all_commands_witness :
    warn testBot ⟨testGuild, 2, 5, 42, 5⟩ Env.allOk emptyDB =
      ({ trace := [Effect.sendChannel "You cannot warn someone with a higher or equal role."]
         raised := none }, emptyDB) ∧
    warn testBot ⟨testGuild, 100, 5, 42, 5⟩ Env.allOk emptyDB =
      warnBody ⟨testGuild, 100, 5, 42, 5⟩ Env.allOk emptyDB ∧
    kick testBot ⟨testGuild, 2, 6, 42, 5⟩ Env.allOk emptyDB =
      kickBody ⟨testGuild, 2, 6, 42, 5⟩ Env.allOk emptyDB :=
  ⟨C8_hierarchy_check_all_commands.1 testBot ⟨testGuild, 2, 5, 42, 5⟩
     Env.allOk emptyDB (by decide) (by decide) (by decide) (by decide),
   C8_hierarchy_check_all_commands.2.1 testBot ⟨testGuild, 100, 5, 42, 5⟩
     Env.allOk emptyDB (by decide) (by decide) (Or.inl (by decide)),
   C8_hierarchy_check_all_commands.2.2.2.2.2.1 testBot ⟨testGuild, 2, 6, 42, 5⟩
     Env.allOk emptyDB (by decide) (by decide) (Or.inr (by decide))⟩

/-- Claim C9: in all four punishment commands a self-target, or a bot-target,
is rejected with a single channel message, an unchanged database and no
exception, regardless of ranks and owner status; a plain channel message is
not an external mutation. -/
theorem C9_self_and_bot_target_rejected :
    (∀ (bot : Bot) (inp : CmdInput) (env : Env) (db : DBState),
      inp.targetId = inp.authorId →
      warn bot inp env db =
        ({ trace := [Effect.sendChannel "You cannot warn yourself."], raised := none }, db)) ∧
    (∀ (bot : Bot) (inp : CmdInput) (env : Env) (db : DBState),
      inp.targetId ≠ inp.authorId → inp.targetId = bot.userId →
      warn bot inp env db =
        ({ trace := [Effect.sendChannel "I cannot warn myself."], raised := none }, db)) ∧
    (∀ (bot : Bot) (inp : CmdInput) (dur : String) (env : Env) (db : DBState),
      inp.targetId = inp.authorId →
      mute bot inp dur env db =
        ({ trace := [Effect.sendChannel "You cannot mute yourself."], raised := none }, db)) ∧
    (∀ (bot : Bot) (inp : CmdInput) (dur : String) (env : Env) (db : DBState),
      inp.targetId ≠ inp.authorId → inp.targetId = bot.userId →
      mute bot inp dur env db =
        ({ trace := [Effect.sendChannel "I cannot mute myself."], raised := none }, db)) ∧
    (∀ (bot : Bot) (inp : CmdInput) (env : Env) (db : DBState),
      inp.targetId = inp.authorId →
      kick bot inp env db =
        ({ trace := [Effect.sendChannel "You cannot kick yourself."], raised := none }, db)) ∧
    (∀ (bot : Bot) (inp : CmdInput) (env : Env) (db : DBState),
      inp.targetId ≠ inp.authorId → inp.targetId = bot.userId →
      kick bot inp env db =
        ({ trace := [Effect.sendChannel "I cannot kick myself."], raised := none }, db)) ∧
    (∀ (bot : Bot) (inp : CmdInput) (env : Env) (db : DBState),
      inp.targetId = inp.authorId →
      ban bot inp env db =
        ({ trace := [Effect.sendChannel "You cannot ban yourself."], raised := none }, db)) ∧
    (∀ (bot : Bot) (inp : CmdInput) (env : Env) (db : DBState),
      inp.targetId ≠ inp.authorId → inp.targetId = bot.userId →
      ban bot inp env db =
        ({ trace := [Effect.sendChannel "I cannot ban myself."], raised := none }, db)) ∧
    (∀ msg, (Effect.sendChannel msg).isMutation = false) := by
  refine ⟨?_, ?_, ?_, ?_, ?_, ?_, ?_, ?_, fun _ => rfl⟩
  · intro bot inp env db h1; unfold warn; rw [if_pos h1]
  · intro bot inp env db h1 h2; unfold warn; rw [if_neg h1, if_pos h2]
  · intro bot inp dur env db h1; unfold mute; rw [if_pos h1]
  · intro bot inp dur env db h1 h2; unfold mute; rw [if_neg h1, if_pos h2]
  · intro bot inp env db h1; unfold kick; rw [if_pos h1]
  · intro bot inp env db h1 h2; unfold kick; rw [if_neg h1, if_pos h2]
  · intro bot inp env db h1; unfold ban; rw [if_pos h1]
  · intro bot inp env db h1 h2; unfold ban; rw [if_neg h1, if_pos h2]

/-- Witness for C9: a self-target mute by the guild owner and a bot-target ban
are each rejected with the single corresponding message and an unchanged
database. -/
theorem C9_self_and_bot_target_rejected_witness :
    mute testBot ⟨testGuild, 100, 9, 100, 1⟩ "1h" Env.allOk emptyDB =
      ({ trace := [Effect.sendChannel "You cannot mute yourself."], raised := none },
       emptyDB) ∧
    ban testBot ⟨testGuild, 100, 9, 999, 1⟩ Env.allOk emptyDB =
      ({ trace := [Effect.sendChannel "I cannot ban myself."], raised := none },
       emptyDB) :=
  ⟨C9_self_and_bot_target_rejected.2.2.1 testBot ⟨testGuild, 100, 9, 100, 1⟩
     "1h" Env.allOk emptyDB (by decide),
   C9_self_and_bot_target_rejected.2.2.2.2.2.2.2.1 testBot
     ⟨testGuild, 100, 9, 999, 1⟩ Env.allOk emptyDB (by decide) (by decide)⟩

/-- Claim C10: for mute, kick and ban, a failing platform side effect
(role-add, kick, ban raising the permission exception or any other exception)
ends the command with only the corresponding user-visible error message: the
database is unchanged, no audit row is written and no later step runs. -/
theorem C10_platform_failure_skips_audit :
    (∀ (bot : Bot) (inp : CmdInput) (dur : String) (t : Nat) (env : Env)
        (db : DBState) (r : RoleInfo),
      inp.targetId ≠ inp.authorId → inp.targetId ≠ bot.userId →
      ¬ (inp.authorTopRoleRank ≤ inp.targetTopRoleRank ∧
          inp.authorId ≠ inp.guild.ownerId) →
      parse_duration dur = Except.ok (some t) → t ≠ 0 → t ≤ 2419200 →
      muteRoleSearch inp.guild.roles = some r →
      (env.addRolesOutcome = CallOutcome.forbidden →
        mute bot inp dur env db =
          ({ trace := [Effect.sendChannel "I don't have permission to mute this user."]
             raised := none }, db)) ∧
      (env.addRolesOutcome = CallOutcome.error →
        mute bot inp dur env db =
          ({ trace := [Effect.logError,
               Effect.sendChannel "An error occurred while trying to mute the user."]
             raised := none }, db))) ∧
    (∀ (bot : Bot) (inp : CmdInput) (env : Env) (db : DBState),
      inp.targetId ≠ inp.authorId → inp.targetId ≠ bot.userId →
      ¬ (inp.authorTopRoleRank ≤ inp.targetTopRoleRank ∧
          inp.authorId ≠ inp.guild.ownerId) →
      env.dmOutcome ≠ CallOutcome.error →
      (env.kickOutcome = CallOutcome.forbidden →
        kick bot inp env db =
          ({ trace := (if env.dmOutcome = CallOutcome.ok
                then [Effect.sendDM inp.targetId "Kicked"] else [])
              ++ [Effect.sendChannel "I don't have permission to kick this user."]
             raised := none }, db)) ∧
      (env.kickOutcome = CallOutcome.error →
        kick bot inp env db =
          ({ trace := (if env.dmOutcome = CallOutcome.ok
                then [Effect.sendDM inp.targetId "Kicked"] else [])
              ++ [Effect.logError,
                  Effect.sendChannel "An error occurred while trying to kick the user."]
             raised := none }, db))) ∧
    (∀ (bot : Bot) (inp : CmdInput) (env : Env) (db : DBState),
      inp.targetId ≠ inp.authorId → inp.targetId ≠ bot.userId →
      ¬ (inp.authorTopRoleRank ≤ inp.targetTopRoleRank ∧
          inp.authorId ≠ inp.guild.ownerId) →
      env.dmOutcome ≠ CallOutcome.error →
      (env.banOutcome = CallOutcome.forbidden →
        ban bot inp env db =
          ({ trace := (if env.dmOutcome = CallOutcome.ok
                then [Effect.sendDM inp.targetId "Banned"] else [])
              ++ [Effect.sendChannel "I don't have permission to ban this user."]
             raised := none }, db)) ∧
      (env.banOutcome = CallOutcome.error →
        ban bot inp env db =
          ({ trace := (if env.dmOutcome = CallOutcome.ok
                then [Effect.sendDM inp.targetId "Banned"] else [])
              ++ [Effect.logError,
                  Effect.sendChannel "An error occurred while trying to ban the user."]
             raised := none }, db))) := by
  refine ⟨?_, ?_, ?_⟩
  · intro bot inp dur t env db r h1 h2 h3 hp ht0 htle hrole
    have hm : ∀ o : CallOutcome, env.addRolesOutcome = o →
        mute bot inp dur env db = muteExec bot inp t r.id [] env db := by
      intro o ho
      unfold mute
      rw [if_neg h1, if_neg h2, if_neg h3]
      unfold muteBody
      rw [hp]
      simp only [Option.getD_some]
      rw [if_neg (by simp [ht0]), if_neg (by omega)]
      unfold muteRolePhase
      rw [hrole]
    constructor
    · intro ha
      rw [hm CallOutcome.forbidden ha]
      unfold muteExec
      rw [ha]
      simp
    · intro ha
      rw [hm CallOutcome.error ha]
      unfold muteExec
      rw [ha]
      simp
  · intro bot inp env db h1 h2 h3 hdm
    have hk : kick bot inp env db = kickBody inp env db := by
      unfold kick; rw [if_neg h1, if_neg h2, if_neg h3]
    constructor
    · intro ho
      rw [hk]
      unfold kickBody
      rw [if_neg hdm, ho]
    · intro ho
      rw [hk]
      unfold kickBody
      rw [if_neg hdm, ho]
  · intro bot inp env db h1 h2 h3 hdm
    have hb : ban bot inp env db = banBody inp env db := by
      unfold ban; rw [if_neg h1, if_neg h2, if_neg h3]
    constructor
    · intro ho
      rw [hb]
      unfold banBody
      rw [if_neg hdm, ho]
    · intro ho
      rw [hb]
      unfold banBody
      rw [if_neg hdm, ho]

/-- Witness for C10: when the role-add of a one-hour mute raises the
permission exception, and when a kick raises a non-permission exception, the
commands end with their error messages only and the empty database is
untouched. -/
theorem C10_platform_failure_skips_audit_witness :
    mute testBot testInput "1h"
      ⟨.ok, .forbidden, .ok, .ok, .ok, .ok, .ok, .ok⟩ emptyDB =
      ({ trace := [Effect.sendChannel "I don't have permission to mute this user."]
         raised := none }, emptyDB) ∧
    kick testBot testInput
      ⟨.ok, .ok, .ok, .ok, .error, .ok, .ok, .ok⟩ emptyDB =
      ({ trace := [Effect.sendDM 42 "Kicked", Effect.logError,
           Effect.sendChannel "An error occurred while trying to kick the user."]
         raised := none }, emptyDB) :=
  ⟨(C10_platform_failure_skips_audit.1 testBot testInput "1h" 3600
      ⟨.ok, .forbidden, .ok, .ok, .ok, .ok, .ok, .ok⟩ emptyDB ⟨50, "Muted", 1⟩
      (by decide) (by decide) (by decide) (by rfl) (by decide) (by decide)
      (by rfl)).1 rfl,
   ((C10_platform_failure_skips_audit.2.1 testBot testInput
      ⟨.ok, .ok, .ok, .ok, .error, .ok, .ok, .ok⟩ emptyDB
      (by decide) (by decide) (by decide) (by decide)).2 rfl).trans (by rfl)⟩

/-- Claim C4 (amended): a fully successful warn of a user with no `users` row
creates no row and leaves the table unchanged (the counter update is skipped),
while a warn of a user whose row exists rewrites its counter to one more than
the stored value. -/
theorem C4_amended_warn_counter_update (bot : Bot) (inp : CmdInput)
    (db : DBState)
    (h1 : inp.targetId ≠ inp.authorId) (h2 : inp.targetId ≠ bot.userId)
    (h3 : ¬ (inp.authorTopRoleRank ≤ inp.targetTopRoleRank ∧
        inp.authorId ≠ inp.guild.ownerId)) :
    (db.get_user inp.targetId = none →
      (warn bot inp Env.allOk db).2.get_user inp.targetId = none ∧
      (warn bot inp Env.allOk db).2.users = db.users) ∧
    (∀ row, db.get_user inp.targetId = some row →
      (warn bot inp Env.allOk db).2.get_user inp.targetId =
        some ⟨row.warnings + 1⟩) := by
  have hw : warn bot inp Env.allOk db = warnBody inp Env.allOk db := by
    unfold warn; rw [if_neg h1, if_neg h2, if_neg h3]
  constructor
  · intro hnone
    rw [hw]
    unfold warnBody
    simp only [Env.allOk, reduceCtorEq, if_false, reduceIte]
    rw [get_user_log_moderation_action, hnone]
    exact ⟨by rw [get_user_log_moderation_action, hnone], rfl⟩
  · intro row hrow
    rw [hw]
    unfold warnBody
    simp only [Env.allOk, reduceCtorEq, if_false, reduceIte]
    rw [get_user_log_moderation_action, hrow]
    simp only []
    rw [get_user_setWarnings, get_user_log_moderation_action, hrow]
    rfl

/-- Witness for C4 (amended): warning fresh user 42 in the empty database
leaves the `users` table empty, and warning user 42 whose row holds counter 0
stores counter 1. -/
theorem C4_amended_warn_counter_update_witness :
    ((warn testBot testInput Env.allOk emptyDB).2.get_user 42 = none ∧
      (warn testBot testInput Env.allOk emptyDB).2.users = emptyDB.users) ∧
    (warn testBot testInput Env.allOk
        ⟨[(42, ⟨0⟩)], [], 1⟩).2.get_user 42 = some ⟨1⟩ :=
  ⟨(C4_amended_warn_counter_update testBot testInput emptyDB
      (by decide) (by decide) (by decide)).1 rfl,
   (C4_amended_warn_counter_update testBot testInput ⟨[(42, ⟨0⟩)], [], 1⟩
      (by decide) (by decide) (by decide)).2 ⟨0⟩ rfl⟩

/-- Claim C6 (amended): for every input of the grammar form
`(\d+d)?(\d+h)?(\d+m)?(\d+s)?` with at least one group present whose total
seconds fit the timedelta range, `parse_duration` returns a Duration whose
total whole seconds equal `86400*d + 3600*h + 60*m + s`; in particular
`parse_duration "1d2h30m"` yields 95400 seconds. -/
theorem C6_amended_grammar_inputs_total_formula :
    (∀ d h m s : Option (List Char),
      DigitGroup d → DigitGroup h → DigitGroup m → DigitGroup s →
      ¬ (d = none ∧ h = none ∧ m = none ∧ s = none) →
      86400 * groupVal d + 3600 * groupVal h + 60 * groupVal m + groupVal s ≤
        TIMEDELTA_MAX_SECONDS →
      parse_duration ⟨grammarChars d h m s⟩ =
        Except.ok (some (86400 * groupVal d + 3600 * groupVal h +
          60 * groupVal m + groupVal s))) ∧
    parse_duration "1d2h30m" = Except.ok (some 95400) := by
  constructor
  · intro d h m s hd hh hm hs _ htot
    have hcls := grammar_chars_class d h m s hd hh hm hs
    have hlow : pyLower (grammarChars d h m s) = grammarChars d h m s := by
      apply pyLower_eq_self
      intro c hc
      rcases hcls c hc with hdig | rfl | rfl | rfl | rfl
      · exact digit_toLower c hdig
      all_goals decide
    have hws : pyStrip (grammarChars d h m s) = grammarChars d h m s := by
      apply pyStrip_eq_self
      intro c hc
      rcases hcls c hc with hdig | rfl | rfl | rfl | rfl
      · exact digit_not_ws c hdig
      all_goals decide
    simp only [parse_duration, toList_mk, hlow, hws,
      matchD d h m s hd hh hm hs, matchH h m s hh hm hs,
      matchM m s hm hs, matchS s hs, groupVal_eq]
    rw [if_neg (by omega)]
  · rfl

/-- Witness for C6 (amended): the grammar sentence with day group "1", hour
group "2", minute group "30" and no second group (the string "1d2h30m")
parses to 86400*1 + 3600*2 + 60*30 + 0 = 95400 seconds. -/
theorem C6_amended_grammar_inputs_total_formula_witness :
    parse_duration ⟨grammarChars (some ['1']) (some ['2']) (some ['3', '0']) none⟩ =
      Except.ok (some (86400 * groupVal (some ['1']) +
        3600 * groupVal (some ['2']) + 60 * groupVal (some ['3', '0']) +
        groupVal none)) :=
  C6_amended_grammar_inputs_total_formula.1 (some ['1']) (some ['2'])
    (some ['3', '0']) none ⟨by decide, by decide⟩ ⟨by decide, by decide⟩
    ⟨by decide, by decide⟩ trivial
    (fun hc => Option.noConfusion hc.1) (by decide)

end CascadeBot
